import Mathlib

/-!
Shallow embedding of the authentication and credential-lifecycle core of the
gas-plumbers backend (auth controller + `UserModel.js`).

External collaborators are modelled as explicit parameters:
* the Mongo user collection is a `List UserDoc`; `findOne`/`findById` become
  `List.find?`, and a save is a replace-by-id in the list;
* `jsonwebtoken`'s `jwt.verify` is a parameter `verify : String → Option JwtPayload`
  (`none` models a thrown verification error caught by the surrounding catch);
* `bcryptjs` is a parameter structure `Bcrypt` (hash with an explicit salt input
  plus compare); `crypto.createHash("sha256")...digest("hex")` is a parameter
  `sha : String → String`; `crypto.randomBytes(32)` is an explicit entropy input
  (a list of bytes), hex-encoded exactly as `Buffer.toString("hex")` does;
* `Date.now()` is an explicit `now : Nat` in milliseconds since the epoch.

JS truthiness of the inspected request fields (`req.cookies.jwt`,
`req.body.email`, ...) is modelled by `Option String` plus an emptiness check,
since `undefined` and `""` are the falsy cases for these string fields.
-/

/-- A user document (the credential-relevant subset of `userSchema`).
`passwordChangedAt` and `passwordResetExpires` are epoch milliseconds. -/
structure UserDoc where
  id : Nat
  email : String
  password : String
  passwordConfirm : Option String
  role : String
  passwordChangedAt : Option Nat
  passwordResetToken : Option String
  passwordResetExpires : Option Nat
  deriving Repr, DecidableEq

/-- Payload of a decoded JWT: `{ id }` claim plus the `iat` issued-at
timestamp in seconds. -/
structure JwtPayload where
  id : Nat
  iat : Nat
  deriving Repr, DecidableEq

/-- The user object as serialized by `createSendToken` after
`user.password = undefined` (password never in the output). -/
structure PublicUser where
  id : Nat
  email : String
  role : String
  deriving Repr, DecidableEq

/-- `bcryptjs`, modelled with the salt drawn by `bcrypt.hash` made an explicit
argument: `hashWithSalt salt cost plaintext` and `compare plaintext digest`. -/
structure Bcrypt where
  hashWithSalt : Nat → Nat → String → String
  compare : String → String → Bool

/-- Outcome of a controller: `ok` is the `createSendToken` success envelope
(status + sanitized user), `plain` a success envelope with only a message,
`fail` an error envelope (status + message). -/
inductive AuthResult where
  | ok (status : Nat) (user : PublicUser)
  | plain (status : Nat) (message : String)
  | fail (status : Nat) (message : String)
  deriving Repr, DecidableEq

/-- Outcome of a middleware: `forward` is `next()` (with the user attached to
the request/response context when `some`), `reject` an error response. -/
inductive MwResult where
  | forward (attached : Option UserDoc)
  | reject (status : Nat) (message : String)
  deriving Repr, DecidableEq

/-- `User.findById id`. -/
def findById (users : List UserDoc) (i : Nat) : Option UserDoc :=
  users.find? (fun u => u.id == i)

/-- `User.findOne({ email })`. -/
def findByEmail (users : List UserDoc) (e : String) : Option UserDoc :=
  users.find? (fun u => u.email == e)

/-- Persisting a modified document: every stored document with the same `_id`
is replaced by the saved one. -/
def updateUser (users : List UserDoc) (w : UserDoc) : List UserDoc :=
  users.map (fun v => if v.id == w.id then w else v)

/-- One lowercase hex digit. -/
def hexDigit (n : Nat) : Char :=
  if n < 10 then Char.ofNat (48 + n) else Char.ofNat (87 + n)

/-- One byte as two lowercase hex digits. -/
def byteToHex (b : Nat) : List Char :=
  [hexDigit (b / 16 % 16), hexDigit (b % 16)]

/-- `Buffer.toString("hex")`: lowercase hex encoding of a byte sequence. -/
def bytesToHex (bs : List Nat) : String :=
  String.mk (bs.flatMap byteToHex)

/-- `userSchema.methods.changedPasswordAfter(JWTTimestamp)`:
`parseInt(passwordChangedAt.getTime() / 1000, 10)` truncates the epoch-ms
timestamp to whole seconds; the method returns `JWTTimestamp < changedTimestamp`
and `false` when `passwordChangedAt` is unset. -/
def changedPasswordAfter (u : UserDoc) (jwtTimestamp : Nat) : Bool :=
  match u.passwordChangedAt with
  | some pca => jwtTimestamp < pca / 1000
  | none => false

/-- `createSendToken(user, statusCode, res)`: responds with the status code and
the user with its password removed from the output. -/
def createSendToken (u : UserDoc) (statusCode : Nat) : AuthResult :=
  .ok statusCode ⟨u.id, u.email, u.role⟩

/-- `req.cookies.jwt` as a token candidate: a missing or empty cookie is falsy. -/
def cookieToken (cookie : Option String) : Option String :=
  match cookie with
  | some c => if c.isEmpty then none else some c
  | none => none

/-- Token extrated by `protect`: `Authorization` header starting with
`"Bearer"` takes priority (token is `split(" ")[1]`), else the `jwt` cookie. -/
def tokenOf (authHeader cookie : Option String) : Option String :=
  match authHeader with
  | some h =>
    if h.startsWith "Bearer" then (h.splitOn " ").get? 1
    else cookieToken cookie
  | none => cookieToken cookie

/-- `exports.protect`: extract the token (401 if falsy), verify it (the catch
block answers 401 `"Invalid token..."` when `jwt.verify` throws), resolve the
user (401 if gone), reject stale tokens via `changedPasswordAfter(decoded.iat)`,
else attach the user and `next()`. -/
def protect (verify : String → Option JwtPayload) (users : List UserDoc)
    (authHeader cookie : Option String) : MwResult :=
  match tokenOf authHeader cookie with
  | none => .reject 401 "You are not logged in! Please log in to get access."
  | some t =>
    if t.isEmpty then
      .reject 401 "You are not logged in! Please log in to get access."
    else
      match verify t with
      | none => .reject 401 "Invalid token. Please log in again!"
      | some d =>
        match findById users d.id with
        | none => .reject 401 "The user belonging to this token no longer exists."
        | some u =>
          if changedPasswordAfter u d.iat then
            .reject 401 "User recently changed password! Please log in again."
          else
            .forward (some u)

/-- `exports.isLoggedIn`: same checks as `protect` driven by the `jwt` cookie
only, but every branch ends in `next()` with no error; the user is attached
(`res.locals.user`) only on full success. -/
def isLoggedIn (verify : String → Option JwtPayload) (users : List UserDoc)
    (cookie : Option String) : MwResult :=
  match cookie with
  | none => .forward none
  | some c =>
    if c.isEmpty then .forward none
    else
      match verify c with
      | none => .forward none
      | some d =>
        match findById users d.id with
        | none => .forward none
        | some u =>
          if changedPasswordAfter u d.iat then .forward none
          else .forward (some u)

/-- The two `userSchema.pre("save")` hooks. When the password path is modified,
the first hook replaces it by `bcrypt.hash(password, 12)` (the salt drawn
internally by bcrypt is the explicit `salt` argument) and sets
`passwordConfirm = undefined`; the second sets
`passwordChangedAt = Date.now() - 1000` unless the document is new. Neither
hook acts when the password is unmodified. -/
def preSaveHooks (B : Bcrypt) (salt : Nat) (now : Nat)
    (isNew passwordModified : Bool) (u : UserDoc) : UserDoc :=
  if passwordModified then
    let u1 : UserDoc :=
      { u with password := B.hashWithSalt salt 12 u.password, passwordConfirm := none }
    if isNew then u1 else { u1 with passwordChangedAt := some (now - 1000) }
  else u

/-- `userSchema.methods.createPasswordResetToken`: hex-encode 32 random bytes
(`entropy`), store the sha256 hex digest of that string in
`passwordResetToken` and `Date.now() + 10 * 60 * 1000` in
`passwordResetExpires`, and return the raw (unhashed) token. -/
def createPasswordResetToken (sha : String → String) (entropy : List Nat)
    (now : Nat) (u : UserDoc) : String × UserDoc :=
  let resetToken := bytesToHex entropy
  (resetToken,
    { u with
        passwordResetToken := some (sha resetToken),
        passwordResetExpires := some (now + 10 * 60 * 1000) })

/-- `exports.login`: 400 when either body field is falsy; find the user by
email; a missing user and a failed `correctPassword` comparison share one 401
response; otherwise `createSendToken(user, 200)`. -/
def login (B : Bcrypt) (users : List UserDoc)
    (email password : Option String) : AuthResult :=
  match email, password with
  | some e, some p =>
    if e.isEmpty || p.isEmpty then
      .fail 400 "Please provide email and password"
    else
      match findByEmail users e with
      | none => .fail 401 "Incorrect email or password"
      | some u =>
        if B.compare p u.password then createSendToken u 200
        else .fail 401 "Incorrect email or password"
  | _, _ => .fail 400 "Please provide email and password"

/-- `exports.forgotPassword`: 404 when no user has the email; otherwise
generate and persist a reset token (`save({validateBeforeSave:false})`, the
password is unmodified so the save hooks do nothing), then send the email.
On delivery failure (`emailOk = false`) both reset fields are set back to
`undefined`, persisted, and a 500 is returned. -/
def forgotPassword (sha : String → String) (B : Bcrypt) (salt : Nat)
    (entropy : List Nat) (now : Nat) (emailOk : Bool)
    (users : List UserDoc) (email : String) : AuthResult × List UserDoc :=
  match findByEmail users email with
  | none => (.fail 404 "There is no user with email address.", users)
  | some user =>
    let gen := createPasswordResetToken sha entropy now user
    let saved := preSaveHooks B salt now false false gen.2
    let users1 := updateUser users saved
    if emailOk then
      (.plain 200 "Token sent to email!", users1)
    else
      let rolledBack : UserDoc :=
        { saved with passwordResetToken := none, passwordResetExpires := none }
      (.fail 500 "There was an error sending the email. Try again later!",
        updateUser users1 (preSaveHooks B salt now false false rolledBack))

/-- The `findOne` filter of `resetPassword`:
`{ passwordResetToken: hashedToken, passwordResetExpires: { $gt: Date.now() } }`
— the stored digest must equal the recomputed one and the stored expiry must
exist and be strictly greater than now. -/
def matchesResetFilter (hashedToken : String) (now : Nat) (u : UserDoc) : Bool :=
  u.passwordResetToken == some hashedToken &&
    match u.passwordResetExpires with
    | some e => now < e
    | none => false

/-- `exports.resetPassword`: recompute the sha256 hex digest of the supplied
raw token, look up a user through `matchesResetFilter`; 400 when none matches;
otherwise set the new password, clear both reset fields, `save()` (password
modified, document not new: bcrypt hash, confirm cleared,
`passwordChangedAt = now - 1000`), and log the user in. -/
def resetPassword (sha : String → String) (B : Bcrypt) (salt : Nat)
    (users : List UserDoc) (rawToken newPassword newPasswordConfirm : String)
    (now : Nat) : AuthResult × List UserDoc :=
  let hashedToken := sha rawToken
  match users.find? (matchesResetFilter hashedToken now) with
  | none => (.fail 400 "Token is invalid or has expired", users)
  | some user =>
    let modified : UserDoc :=
      { user with
          password := newPassword,
          passwordConfirm := some newPasswordConfirm,
          passwordResetToken := none,
          passwordResetExpires := none }
    let saved := preSaveHooks B salt now false true modified
    (createSendToken saved 200, updateUser users saved)

/-- `exports.updatePassword`: resolve `req.user.id` (404 if gone), 401 when
`correctPassword(passwordCurrent, user.password)` fails, otherwise set the new
password, `save()` (hooks run: hash, clear confirm, bump `passwordChangedAt`)
and issue a fresh token. -/
def updatePassword (B : Bcrypt) (salt : Nat) (users : List UserDoc)
    (reqUserId : Nat) (passwordCurrent newPassword newPasswordConfirm : String)
    (now : Nat) : AuthResult × List UserDoc :=
  match findById users reqUserId with
  | none => (.fail 404 "User not found", users)
  | some user =>
    if !(B.compare passwordCurrent user.password) then
      (.fail 401 "Your current password is wrong.", users)
    else
      let modified : UserDoc :=
        { user with
            password := newPassword,
            passwordConfirm := some newPasswordConfirm }
      let saved := preSaveHooks B salt now false true modified
      (createSendToken saved 200, updateUser users saved)

/-- `exports.adminProtection`: look up `req.params.id`; error 401 only when a
user is found whose role is the string `"Admin"`; otherwise `next()`. -/
def adminProtection (users : List UserDoc) (paramId : Nat) : MwResult :=
  match findById users paramId with
  | some u =>
    if u.role == "Admin" then .reject 401 "admin acc can\x27t be changed"
    else .forward none
  | none => .forward none

/-- The role enumeration of `userSchema.role`. -/
def roleEnumValues : List String := ["customer", "engineer", "admin"]

/-! ### Concrete instances used by witnesses and counterexamples -/

/-- A concrete stand-in for the sha256 hex digest function. -/
def cSha (s : String) : String := String.append "#" s

/-- A concrete stand-in for bcryptjs: the digest records cost and salt and
embeds the plaintext after a final separator; compare checks that suffix. -/
def cBcrypt : Bcrypt where
  hashWithSalt := fun s c p =>
    "$2b$" ++ toString c ++ "$" ++ toString s ++ "$" ++ p
  compare := fun p d =>
    (d.data.reverse.takeWhile (fun ch => ch != Char.ofNat 36)).reverse == p.data

/-- A user whose password changed at epoch-ms 5000 (= second 5). -/
def cUser : UserDoc :=
  { id := 1, email := "a@b.com", password := "$2b$12$1$secret12",
    passwordConfirm := none, role := "customer",
    passwordChangedAt := some 5000,
    passwordResetToken := none, passwordResetExpires := none }

/-- A concrete verifier accepting exactly the token `"tok"`, decoded as
user 1 with `iat = 5` seconds. -/
def cVerify : String → Option JwtPayload :=
  fun t => if t == "tok" then some ⟨1, 5⟩ else none

/-- A user with a pending reset token (digest of raw `"tok"`), expiring at
epoch-ms 1000. -/
def cRUser : UserDoc :=
  { id := 2, email := "r@b.com", password := "$2b$12$1$oldpass12",
    passwordConfirm := none, role := "customer",
    passwordChangedAt := none,
    passwordResetToken := some (cSha "tok"), passwordResetExpires := some 1000 }

/-- First of two users that happen to store the same reset-token digest. -/
def cU3 : UserDoc :=
  { id := 3, email := "u3@b.com", password := "$2b$12$1$pass3333",
    passwordConfirm := none, role := "customer",
    passwordChangedAt := none,
    passwordResetToken := some (cSha "dup"), passwordResetExpires := some 1000 }

/-- Second of two users that happen to store the same reset-token digest. -/
def cU4 : UserDoc :=
  { id := 4, email := "u4@b.com", password := "$2b$12$1$pass4444",
    passwordConfirm := none, role := "customer",
    passwordChangedAt := none,
    passwordResetToken := some (cSha "dup"), passwordResetExpires := some 1000 }

/-- A freshly signed-up user before the save hooks run (plaintext password). -/
def cSignup : UserDoc :=
  { id := 5, email := "s@b.com", password := "secret12",
    passwordConfirm := some "secret12", role := "customer",
    passwordChangedAt := none,
    passwordResetToken := none, passwordResetExpires := none }

/-! ### Helper lemmas -/

/-- The `findOne` filter of `resetPassword`, spelled out propositionally. -/
lemma matchesResetFilter_iff (h : String) (now : Nat) (u : UserDoc) :
    matchesResetFilter h now u = true ↔
      u.passwordResetToken = some h ∧
        ∃ e, u.passwordResetExpires = some e ∧ now < e := by
  unfold matchesResetFilter
  cases u.passwordResetExpires with
  | none => simp
  | some e => simp [and_comm]

/-- After a replace-by-id save, looking the id up yields the saved document,
provided some document with that id was stored. -/
lemma findById_updateUser_of_mem (users : List UserDoc) (w : UserDoc)
    (hex : ∃ v ∈ users, v.id = w.id) :
    findById (updateUser users w) w.id = some w := by
  induction users with
  | nil => rcases hex with ⟨v, hv, _⟩; cases hv
  | cons h t ih =>
    by_cases hid : h.id = w.id
    · simp [updateUser, findById, hid]
    · rcases hex with ⟨v, hv, hvid⟩
      rcases List.mem_cons.mp hv with rfl | hvt
      · exact absurd hvid hid
      · have ht : findById (updateUser t w) w.id = some w := ih ⟨v, hvt, hvid⟩
        simpa [updateUser, findById, hid] using ht

/-! ### C1: token freshness versus `passwordChangedAt` -/

/-- C1 (counterexample): the claim says a bearer token whose `iat` equals
`passwordChangedAt` at seconds granularity is rejected as stale; but with
`passwordChangedAt = 5000` ms (second 5) and a verified token with `iat = 5`,
`protect` grants access (`changedPasswordAfter` tests strict `<`). -/
theorem protect_accepts_iat_equal_to_changed :
    cVerify "tok" = some ⟨1, 5⟩ ∧
    cUser.passwordChangedAt = some 5000 ∧
    5 = 5000 / 1000 ∧
    protect cVerify [cUser] none (some "tok") = .forward (some cUser) := by
  refine ⟨rfl, rfl, rfl, ?_⟩
  decide

/-- C1 (amended): when `protect` resolves a token to a user with
`passwordChangedAt` set, it forwards the request if and only if the token's
`iat` is at least `passwordChangedAt` truncated to seconds — greater *or
equal*, so a token issued in the same second as the change is accepted. -/
theorem protect_grants_iff_iat_ge_changed
    (verify : String → Option JwtPayload) (users : List UserDoc)
    (authHeader cookie : Option String) (t : String) (d : JwtPayload)
    (u : UserDoc) (pca : Nat)
    (ht : tokenOf authHeader cookie = some t) (hne : t.isEmpty = false)
    (hv : verify t = some d) (hu : findById users d.id = some u)
    (hp : u.passwordChangedAt = some pca) :
    protect verify users authHeader cookie = .forward (some u) ↔
      pca / 1000 ≤ d.iat := by
  unfold protect
  rw [ht]
  simp only [hne, Bool.false_eq_true, if_false, hv, hu]
  unfold changedPasswordAfter
  rw [hp]
  by_cases hlt : d.iat < pca / 1000
  · simp [hlt, Nat.not_le.mpr hlt]
  · simp [hlt, Nat.not_lt.mp hlt]

/-- C1 (witness for the amended theorem): the concrete setting of the
counterexample satisfies every hypothesis, and the token is accepted since
`5000 / 1000 ≤ 5`. -/
theorem protect_grants_iff_iat_ge_changed_witness :
    protect cVerify [cUser] none (some "tok") = .forward (some cUser) :=
  (protect_grants_iff_iat_ge_changed cVerify [cUser] none (some "tok")
    "tok" ⟨1, 5⟩ cUser 5000 (by decide) rfl rfl (by decide) rfl).mpr (by decide)

/-- After a replace-by-id save of `w`, a predicate failing on `w` and on every
stored document with a different id fails on every stored document. -/
lemma find?_updateUser_eq_none (users : List UserDoc) (w : UserDoc)
    (p : UserDoc → Bool) (hw : p w = false)
    (hothers : ∀ v ∈ users, v.id ≠ w.id → p v = false) :
    (updateUser users w).find? p = none := by
  apply List.find?_eq_none.mpr
  intro x hx
  rcases List.mem_map.mp hx with ⟨v, hv, rfl⟩
  by_cases hid : v.id = w.id
  · simp [hid, hw]
  · simp [hid, hothers v hv hid]

/-! ### C2: resetPassword requires a matching, unexpired token -/

/-- C2: `resetPassword` answers the 400 invalid-or-expired error with the
store untouched exactly when no stored user both holds the sha256 digest of
the supplied raw token and has an expiry strictly later than now; whenever
such a user exists the password update goes through instead. -/
theorem resetPassword_requires_valid_unexpired_token
    (sha : String → String) (B : Bcrypt) (salt : Nat) (users : List UserDoc)
    (raw npw npc : String) (now : Nat) :
    resetPassword sha B salt users raw npw npc now
        = (.fail 400 "Token is invalid or has expired", users) ↔
      ∀ u ∈ users, ¬(u.passwordResetToken = some (sha raw) ∧
        ∃ e, u.passwordResetExpires = some e ∧ now < e) := by
  rcases hfind : users.find? (matchesResetFilter (sha raw) now) with _ | u
  · have h1 : resetPassword sha B salt users raw npw npc now
        = (.fail 400 "Token is invalid or has expired", users) := by
      simp only [resetPassword, hfind]
    rw [h1]
    have hall := List.find?_eq_none.mp hfind
    refine iff_of_true rfl ?_
    intro u hu hP
    exact hall u hu ((matchesResetFilter_iff _ _ _).mpr hP)
  · have h1 : resetPassword sha B salt users raw npw npc now
        = (createSendToken (preSaveHooks B salt now false true
            { u with password := npw, passwordConfirm := some npc,
                     passwordResetToken := none, passwordResetExpires := none }) 200,
           updateUser users (preSaveHooks B salt now false true
            { u with password := npw, passwordConfirm := some npc,
                     passwordResetToken := none, passwordResetExpires := none })) := by
      simp only [resetPassword, hfind]
    rw [h1]
    refine iff_of_false ?_ ?_
    · intro h
      exact absurd (congrArg Prod.fst h) (by simp [createSendToken])
    · intro hall
      exact hall u (List.mem_of_find?_eq_some hfind)
        ((matchesResetFilter_iff _ _ _).mp (List.find?_some hfind))

/-! ### C3: a reset token is usable at most once -/

/-- C3 (counterexample): the claim quantifies over every user state in which
`resetPassword` succeeds; in a state where two user records store the same
token digest (both unexpired), the first submission succeeds on user 3, yet
re-submitting the very same raw token against the resulting state succeeds
again (on user 4) instead of failing with the invalid-or-expired error. -/
theorem resetToken_reusable_with_duplicate_digests :
    (resetPassword cSha cBcrypt 0 [cU3, cU4] "dup" "newpass12" "newpass12" 500).1
        = .ok 200 ⟨3, "u3@b.com", "customer"⟩ ∧
    (resetPassword cSha cBcrypt 0
        (resetPassword cSha cBcrypt 0 [cU3, cU4] "dup" "newpass12" "newpass12" 500).2
        "dup" "other1234" "other1234" 600).1
        = .ok 200 ⟨4, "u4@b.com", "customer"⟩ := by
  constructor <;> decide

/-- C3 (amended): provided the sha256 digest of the raw token is stored by at
most one user record — which the first `findOne` result is — a successful
reset clears both reset fields on that record, and a second submission of the
same raw token against the resulting store fails with the 400
invalid-or-expired error, leaving the store unchanged. -/
theorem resetToken_single_use
    (sha : String → String) (B : Bcrypt) (salt salt2 : Nat)
    (users : List UserDoc) (raw npw npc npw2 npc2 : String) (now now2 : Nat)
    (u : UserDoc)
    (hfind : users.find? (matchesResetFilter (sha raw) now) = some u)
    (huniq : ∀ v ∈ users, v.passwordResetToken = some (sha raw) → v = u) :
    (∃ pu, (resetPassword sha B salt users raw npw npc now).1 = .ok 200 pu) ∧
    (∀ w ∈ (resetPassword sha B salt users raw npw npc now).2,
        w.id = u.id →
          w.passwordResetToken = none ∧ w.passwordResetExpires = none) ∧
    resetPassword sha B salt2 (resetPassword sha B salt users raw npw npc now).2
        raw npw2 npc2 now2
      = (.fail 400 "Token is invalid or has expired",
         (resetPassword sha B salt users raw npw npc now).2) := by
  have h1 : resetPassword sha B salt users raw npw npc now
      = (createSendToken (preSaveHooks B salt now false true
            { u with password := npw, passwordConfirm := some npc,
                     passwordResetToken := none, passwordResetExpires := none }) 200,
         updateUser users (preSaveHooks B salt now false true
            { u with password := npw, passwordConfirm := some npc,
                     passwordResetToken := none, passwordResetExpires := none })) := by
    simp only [resetPassword, hfind]
  rw [h1]
  set S : UserDoc := preSaveHooks B salt now false true
      { u with password := npw, passwordConfirm := some npc,
               passwordResetToken := none, passwordResetExpires := none } with hS
  have hSid : S.id = u.id := by simp [hS, preSaveHooks]
  have hStok : S.passwordResetToken = none := by simp [hS, preSaveHooks]
  have hSexp : S.passwordResetExpires = none := by simp [hS, preSaveHooks]
  have hnone : (updateUser users S).find? (matchesResetFilter (sha raw) now2)
      = none := by
    apply find?_updateUser_eq_none
    · unfold matchesResetFilter
      rw [hStok]
      simp
    · intro v hv hne
      by_contra hmv
      rw [Bool.not_eq_false] at hmv
      obtain ⟨htok, _⟩ := (matchesResetFilter_iff _ _ _).mp hmv
      have hvu := huniq v hv htok
      exact hne (by rw [hvu, hSid])
  refine ⟨⟨_, rfl⟩, ?_, ?_⟩
  · intro w hw hid
    rcases List.mem_map.mp hw with ⟨v, hv, rfl⟩
    by_cases h2 : v.id = S.id
    · simp only [h2, beq_self_eq_true, if_true]
      exact ⟨hStok, hSexp⟩
    · have : (if (v.id == S.id) = true then S else v) = v := by
        simp [h2]
      rw [this] at hid ⊢
      exact absurd (by rw [hid, ← hSid]) h2
  · simp only [resetPassword, hnone]

/-- C3 (witness): one stored user holds the digest of raw token `"tok"`
expiring at 1000; the reset at time 500 succeeds, clears both fields, and the
identical raw token is refused afterwards. -/
theorem resetToken_single_use_witness :
    (∃ pu, (resetPassword cSha cBcrypt 7 [cRUser] "tok" "newpass12" "newpass12" 500).1
        = .ok 200 pu) ∧
    (∀ w ∈ (resetPassword cSha cBcrypt 7 [cRUser] "tok" "newpass12" "newpass12" 500).2,
        w.id = cRUser.id →
          w.passwordResetToken = none ∧ w.passwordResetExpires = none) ∧
    resetPassword cSha cBcrypt 9
        (resetPassword cSha cBcrypt 7 [cRUser] "tok" "newpass12" "newpass12" 500).2
        "tok" "other1234" "other1234" 600
      = (.fail 400 "Token is invalid or has expired",
         (resetPassword cSha cBcrypt 7 [cRUser] "tok" "newpass12" "newpass12" 500).2) :=
  resetToken_single_use cSha cBcrypt 7 9 [cRUser] "tok" "newpass12" "newpass12"
    "other1234" "other1234" 500 600 cRUser (by decide) (by decide)

/-! ### C4: reset-token generation -/

/-- Hex encoding of a byte list yields two characters per byte. -/
lemma flatMap_byteToHex_length (bs : List Nat) :
    (bs.flatMap byteToHex).length = 2 * bs.length := by
  induction bs with
  | nil => rfl
  | cons b t ih => simp [byteToHex, ih]; omega

/-- Hex encoding of a byte list yields a string of twice its length. -/
lemma bytesToHex_length (bs : List Nat) :
    (bytesToHex bs).length = 2 * bs.length := by
  have h : (bytesToHex bs).length = (bs.flatMap byteToHex).length := rfl
  rw [h, flatMap_byteToHex_length]

/-- C4: from 32 random bytes, `createPasswordResetToken` returns the 64-char
hex raw token, stores exactly the sha256 digest of that raw token and an
expiry of `now + 10` minutes, and leaves every other field of the user record
unchanged (in particular the raw token itself is not persisted). -/
theorem createPasswordResetToken_spec (sha : String → String)
    (entropy : List Nat) (now : Nat) (u : UserDoc)
    (hlen : entropy.length = 32) :
    (createPasswordResetToken sha entropy now u).1 = bytesToHex entropy ∧
    (createPasswordResetToken sha entropy now u).1.length = 64 ∧
    (createPasswordResetToken sha entropy now u).2.passwordResetToken
        = some (sha (createPasswordResetToken sha entropy now u).1) ∧
    (createPasswordResetToken sha entropy now u).2.passwordResetExpires
        = some (now + 10 * 60 * 1000) ∧
    (createPasswordResetToken sha entropy now u).2.id = u.id ∧
    (createPasswordResetToken sha entropy now u).2.email = u.email ∧
    (createPasswordResetToken sha entropy now u).2.password = u.password ∧
    (createPasswordResetToken sha entropy now u).2.passwordConfirm
        = u.passwordConfirm ∧
    (createPasswordResetToken sha entropy now u).2.role = u.role ∧
    (createPasswordResetToken sha entropy now u).2.passwordChangedAt
        = u.passwordChangedAt := by
  refine ⟨rfl, ?_, rfl, rfl, rfl, rfl, rfl, rfl, rfl, rfl⟩
  show (bytesToHex entropy).length = 64
  rw [bytesToHex_length, hlen]

/-- C4 (witness): generation from the concrete 32-byte entropy `0xab × 32`. -/
theorem createPasswordResetToken_spec_witness :
    (createPasswordResetToken cSha (List.replicate 32 171) 1000 cUser).1
        = bytesToHex (List.replicate 32 171) ∧
    (createPasswordResetToken cSha (List.replicate 32 171) 1000 cUser).1.length
        = 64 ∧
    (createPasswordResetToken cSha (List.replicate 32 171) 1000
          cUser).2.passwordResetToken
        = some (cSha (createPasswordResetToken cSha (List.replicate 32 171)
            1000 cUser).1) ∧
    (createPasswordResetToken cSha (List.replicate 32 171) 1000
          cUser).2.passwordResetExpires
        = some (1000 + 10 * 60 * 1000) ∧
    (createPasswordResetToken cSha (List.replicate 32 171) 1000 cUser).2.id
        = cUser.id ∧
    (createPasswordResetToken cSha (List.replicate 32 171) 1000 cUser).2.email
        = cUser.email ∧
    (createPasswordResetToken cSha (List.replicate 32 171) 1000
          cUser).2.password
        = cUser.password ∧
    (createPasswordResetToken cSha (List.replicate 32 171) 1000
          cUser).2.passwordConfirm
        = cUser.passwordConfirm ∧
    (createPasswordResetToken cSha (List.replicate 32 171) 1000 cUser).2.role
        = cUser.role ∧
    (createPasswordResetToken cSha (List.replicate 32 171) 1000
          cUser).2.passwordChangedAt
        = cUser.passwordChangedAt :=
  createPasswordResetToken_spec cSha (List.replicate 32 171) 1000 cUser
    (by decide)

/-! ### C5: forgot-password rolls back on email failure -/

/-- C5: when the email user exists and delivery fails, `forgotPassword`
answers 500 and the stored record for that user ends with both reset fields
cleared and everything else as before — the no-pending-reset state. -/
theorem forgotPassword_rollback (sha : String → String) (B : Bcrypt)
    (salt : Nat) (entropy : List Nat) (now : Nat) (users : List UserDoc)
    (email : String) (u : UserDoc)
    (hu : findByEmail users email = some u) :
    (forgotPassword sha B salt entropy now false users email).1
        = .fail 500 "There was an error sending the email. Try again later!" ∧
    findById (forgotPassword sha B salt entropy now false users email).2 u.id
        = some { u with passwordResetToken := none,
                        passwordResetExpires := none } := by
  have h1 : forgotPassword sha B salt entropy now false users email
      = (.fail 500 "There was an error sending the email. Try again later!",
         updateUser (updateUser users (createPasswordResetToken sha entropy now u).2)
           { u with passwordResetToken := none, passwordResetExpires := none }) := by
    simp [forgotPassword, hu, preSaveHooks, createPasswordResetToken]
  rw [h1]
  refine ⟨rfl, ?_⟩
  have humem : u ∈ users := List.mem_of_find?_eq_some hu
  have hmem2 : (createPasswordResetToken sha entropy now u).2
      ∈ updateUser users (createPasswordResetToken sha entropy now u).2 := by
    unfold updateUser
    exact List.mem_map.mpr ⟨u, humem, by simp [createPasswordResetToken]⟩
  exact findById_updateUser_of_mem _ _
    ⟨(createPasswordResetToken sha entropy now u).2, hmem2, rfl⟩

/-- C5 (witness): delivery failure for the concrete user `cUser`. -/
theorem forgotPassword_rollback_witness :
    (forgotPassword cSha cBcrypt 7 (List.replicate 32 171) 1000 false [cUser]
        "a@b.com").1
        = .fail 500 "There was an error sending the email. Try again later!" ∧
    findById (forgotPassword cSha cBcrypt 7 (List.replicate 32 171) 1000 false
        [cUser] "a@b.com").2 cUser.id
        = some { cUser with passwordResetToken := none,
                            passwordResetExpires := none } :=
  forgotPassword_rollback cSha cBcrypt 7 (List.replicate 32 171) 1000 [cUser]
    "a@b.com" cUser (by decide)

/-! ### C6: login never reveals whether the email exists -/

/-- C6: with both body fields present, a login against a non-existent email
and a login against an existing email with a wrong password produce the very
same response — status 401 with message `"Incorrect email or password"`. -/
theorem login_no_account_enumeration (B : Bcrypt) (users : List UserDoc)
    (e1 p1 e2 p2 : String) (u : UserDoc)
    (he1 : e1.isEmpty = false) (hp1 : p1.isEmpty = false)
    (he2 : e2.isEmpty = false) (hp2 : p2.isEmpty = false)
    (hno : findByEmail users e1 = none)
    (hsome : findByEmail users e2 = some u)
    (hbad : B.compare p2 u.password = false) :
    login B users (some e1) (some p1) = .fail 401 "Incorrect email or password" ∧
    login B users (some e2) (some p2) = login B users (some e1) (some p1) := by
  have h1 : login B users (some e1) (some p1)
      = .fail 401 "Incorrect email or password" := by
    simp [login, he1, hp1, hno]
  have h2 : login B users (some e2) (some p2)
      = .fail 401 "Incorrect email or password" := by
    simp [login, he2, hp2, hsome, hbad]
  exact ⟨h1, h2.trans h1.symm⟩

/-- C6 (witness): unknown email `x@b.com` versus `cUser`'s email with a wrong
password. -/
theorem login_no_account_enumeration_witness :
    login cBcrypt [cUser] (some "x@b.com") (some "whatever12")
        = .fail 401 "Incorrect email or password" ∧
    login cBcrypt [cUser] (some "a@b.com") (some "wrongpass1")
        = login cBcrypt [cUser] (some "x@b.com") (some "whatever12") :=
  login_no_account_enumeration cBcrypt [cUser] "x@b.com" "whatever12"
    "a@b.com" "wrongpass1" cUser (by decide) (by decide) (by decide) (by decide)
    (by decide) (by decide) (by decide)

/-! ### C7: update-password rejects a wrong current password untouched -/

/-- C7: when the authenticated user resolves but the supplied current
password fails the bcrypt comparison, `updatePassword` answers 401 and the
store — in particular the stored password hash — is returned unchanged; the
mutation path is reached only after the comparison succeeds. -/
theorem updatePassword_wrong_current (B : Bcrypt) (salt : Nat)
    (users : List UserDoc) (uid : Nat) (pc npw npc : String) (now : Nat)
    (u : UserDoc)
    (hu : findById users uid = some u)
    (hbad : B.compare pc u.password = false) :
    updatePassword B salt users uid pc npw npc now
      = (.fail 401 "Your current password is wrong.", users) := by
  simp [updatePassword, hu, hbad]

/-- C7 (witness): wrong current password against `cUser`. -/
theorem updatePassword_wrong_current_witness :
    updatePassword cBcrypt 7 [cUser] 1 "wrongpass1" "newpass12" "newpass12" 900
      = (.fail 401 "Your current password is wrong.", [cUser]) :=
  updatePassword_wrong_current cBcrypt 7 [cUser] 1 "wrongpass1" "newpass12"
    "newpass12" 900 cUser (by decide) (by decide)

/-! ### C8: signup persists a cost-12 salted digest, never the plaintext -/

/-- C8: the signup save hook persists `bcrypt.hash(plaintext, 12)` — under
bcrypt's contract (one-wayness, per-call random salts, compare inverts hash)
the stored field differs from the plaintext, two hashings of the same
plaintext (distinct salts) differ yet both verify, and `passwordConfirm` is
not persisted. -/
theorem signup_password_hashing (B : Bcrypt) (salt1 salt2 now1 now2 : Nat)
    (u : UserDoc)
    (hdiff : B.hashWithSalt salt1 12 u.password ≠ B.hashWithSalt salt2 12 u.password)
    (hne : B.hashWithSalt salt1 12 u.password ≠ u.password)
    (hver1 : B.compare u.password (B.hashWithSalt salt1 12 u.password) = true)
    (hver2 : B.compare u.password (B.hashWithSalt salt2 12 u.password) = true) :
    (preSaveHooks B salt1 now1 true true u).password
        = B.hashWithSalt salt1 12 u.password ∧
    (preSaveHooks B salt1 now1 true true u).password ≠ u.password ∧
    (preSaveHooks B salt1 now1 true true u).password
        ≠ (preSaveHooks B salt2 now2 true true u).password ∧
    B.compare u.password (preSaveHooks B salt1 now1 true true u).password = true ∧
    B.compare u.password (preSaveHooks B salt2 now2 true true u).password = true ∧
    (preSaveHooks B salt1 now1 true true u).passwordConfirm = none :=
  ⟨rfl, hne, hdiff, hver1, hver2, rfl⟩

/-- C8 (witness): hashing `cSignup`'s plaintext with two concrete salts. -/
theorem signup_password_hashing_witness :
    (preSaveHooks cBcrypt 1 100 true true cSignup).password
        = cBcrypt.hashWithSalt 1 12 cSignup.password ∧
    (preSaveHooks cBcrypt 1 100 true true cSignup).password ≠ cSignup.password ∧
    (preSaveHooks cBcrypt 1 100 true true cSignup).password
        ≠ (preSaveHooks cBcrypt 2 200 true true cSignup).password ∧
    cBcrypt.compare cSignup.password
        (preSaveHooks cBcrypt 1 100 true true cSignup).password = true ∧
    cBcrypt.compare cSignup.password
        (preSaveHooks cBcrypt 2 200 true true cSignup).password = true ∧
    (preSaveHooks cBcrypt 1 100 true true cSignup).passwordConfirm = none :=
  signup_password_hashing cBcrypt 1 2 100 200 cSignup (by decide) (by decide)
    (by decide) (by decide)

/-! ### C9: isLoggedIn is a soft check that never rejects -/

/-- C9: `isLoggedIn` forwards every request (no rejection branch is
reachable), and it attaches a user exactly when a non-empty `jwt` cookie is
present, verification succeeds, the decoded subject still exists in the
store, and the password was not changed after the token's `iat`. -/
theorem isLoggedIn_never_rejects (verify : String → Option JwtPayload)
    (users : List UserDoc) (cookie : Option String) :
    (∃ o, isLoggedIn verify users cookie = .forward o) ∧
    (∀ u : UserDoc, isLoggedIn verify users cookie = .forward (some u) ↔
      ∃ c d, cookie = some c ∧ c.isEmpty = false ∧ verify c = some d ∧
        findById users d.id = some u ∧ changedPasswordAfter u d.iat = false) := by
  rcases cookie with _ | c
  · simp [isLoggedIn]
  · cases hemp : c.isEmpty with
    | true => simp [isLoggedIn, hemp]
    | false =>
      rcases hv : verify c with _ | d
      · simp [isLoggedIn, hemp, hv]
      · rcases hf : findById users d.id with _ | u0
        · simp [isLoggedIn, hemp, hv, hf]
        · cases hch : changedPasswordAfter u0 d.iat with
          | true => simp [isLoggedIn, hemp, hv, hf, hch]
          | false =>
            constructor
            · exact ⟨some u0, by simp [isLoggedIn, hemp, hv, hf, hch]⟩
            · intro u
              simp only [isLoggedIn, hemp, hv, hf, hch]
              constructor
              · intro h
                simp only [Bool.false_eq_true, if_false, MwResult.forward.injEq,
                  Option.some.injEq] at h
                exact ⟨c, d, rfl, hemp, hv, by rw [hf, h], by rw [← h]; exact hch⟩
              · rintro ⟨c2, d2, hc2, _, hv2, hf2, _⟩
                cases hc2
                rw [hv] at hv2
                cases hv2
                rw [hf] at hf2
                cases hf2
                simp

/-! ### C10: adminProtection cannot fire on enum-valid roles -/

/-- C10: `adminProtection` rejects only a user whose role is the capitalized
string `"Admin"`; since the schema enumeration only admits `"customer"`,
`"engineer"` and `"admin"`, the middleware always forwards when every
resolvable user has an enum-valid role (including when no user resolves). -/
theorem adminProtection_enum_role_forwards (users : List UserDoc) (pid : Nat)
    (hrole : ∀ u, findById users pid = some u → u.role ∈ roleEnumValues) :
    adminProtection users pid = .forward none := by
  unfold adminProtection
  rcases hf : findById users pid with _ | u
  · rfl
  · have hr := hrole u hf
    simp only [roleEnumValues, List.mem_cons, List.not_mem_nil, or_false] at hr
    rcases hr with h | h | h <;> simp [h]

/-- C10 (witness): the stored user with id 1 has role `"customer"`, so the
middleware forwards. -/
theorem adminProtection_enum_role_forwards_witness :
    adminProtection [cUser] 1 = .forward none :=
  adminProtection_enum_role_forwards [cUser] 1 (by
    intro u h
    have hc : findById [cUser] 1 = some cUser := by decide
    rw [hc] at h
    injection h with h2
    rw [← h2]
    decide)
